import Mathlib

/-!
Verification of the NHTSA fetch-pipeline ops (`src/ops/nhtsa_ops.py`) through
a shallow embedding.  Each Python op is translated into a Lean function over
explicit environments: HTTP responses become functions from the request key to
a response value, the DuckDB store becomes a map from table names to optional
row lists, and raised exceptions become `Except` errors.
-/

set_option maxHeartbeats 1000000

namespace Nhtsa

/-! ## Analytical-store model (duckdb)

A store maps a table name to the rows of the table, `none` when the table does
not exist.  `upload_df_to_duckdb` issues exactly two SQL statements, in order:
`DROP TABLE IF EXISTS <name>` then `CREATE TABLE <name> AS SELECT * FROM df`,
each executed by a separate `con.execute` call. -/

def Store (α : Type) := String → Option (List α)

/-- A single SQL statement issued by the publisher, atomic at store level. -/
inductive SqlStmt (α : Type) where
  | dropIfExists (name : String)
  | createAs (name : String) (rows : List α)

/-- Effect of one statement on the store.  `DROP TABLE IF EXISTS` removes the
table when present and is a no-op otherwise; `CREATE TABLE ... AS` installs
exactly the given rows. -/
def execStmt {α : Type} (store : Store α) : SqlStmt α → Store α
  | .dropIfExists name => fun n => if n = name then none else store n
  | .createAs name rows => fun n => if n = name then some rows else store n

/-- The statements `upload_df_to_duckdb` executes, in order (nhtsa_ops.py
lines 23-24): a separate drop followed by a separate create. -/
def uploadStmts {α : Type} (table_name : String) (df : List α) : List (SqlStmt α) :=
  [SqlStmt.dropIfExists table_name, SqlStmt.createAs table_name df]

/-- Op `upload_df_to_duckdb`: run the two statements against the store. -/
def upload_df_to_duckdb {α : Type} (store : Store α) (table_name : String)
    (df : List α) : Store α :=
  (uploadStmts table_name df).foldl execStmt store

/-- The store states observable at statement boundaries while the publisher
runs: the initial state, the state after the drop, and the final state. -/
def uploadTrace {α : Type} (store : Store α) (table_name : String)
    (df : List α) : List (Store α) :=
  List.scanl execStmt store (uploadStmts table_name df)

/-! ## Key extractor (reads back a published table) -/

/-- Error raised by a read of a table that does not exist (duckdb's catalog
error, the spec's `MissingTableError`). -/
inductive DBError where
  | missingTable (name : String)
deriving DecidableEq, Repr

/-- pandas `drop_duplicates` / SQL `DISTINCT`: keep the first occurrence of
each value, in first-occurrence order. -/
def dropDuplicates {α : Type} [DecidableEq α] : List α → List α
  | [] => []
  | x :: xs => x :: (dropDuplicates xs).filter (fun y => y ≠ x)

/-- Query `SELECT DISTINCT <col> FROM <name>`: fails with the missing-table error
when the table does not exist, otherwise returns the distinct projected
values. -/
def selectDistinctCol {α β : Type} [DecidableEq β] (store : Store α)
    (name : String) (col : α → β) : Except DBError (List β) :=
  match store name with
  | none => .error (.missingTable name)
  | some rows => .ok (dropDuplicates (rows.map col))

/-! ## Manufacturer rows (data model of the `manufacturers` pipeline) -/

/-- One element of a raw record's nested `VehicleTypes` list. -/
structure VehicleType where
  isPrimary : String
  vtName : String
deriving DecidableEq, Repr

/-- One raw record of a `getallmanufacturers` page (`Results` element). -/
structure MfrRecord where
  country : String
  mfr_CommonName : String
  mfr_ID : Int
  mfr_Name : String
  vehicleTypes : List VehicleType
deriving DecidableEq, Repr

/-- One page of the paginated endpoint: reported `Count` and `Results`. -/
structure MfrPage where
  count : Nat
  results : List MfrRecord
deriving Repr

/-- One flattened row produced by `pd.json_normalize(..., record_path=
['VehicleTypes'], meta=[...])`. -/
structure MfrRow where
  isPrimary : String
  vtName : String
  country : String
  mfr_CommonName : String
  mfr_ID : Int
  mfr_Name : String
deriving DecidableEq, Repr

/-- Projected row of the final `manufacturers` table (line 66). -/
structure MfrFinalRow where
  mfr_ID : Int
  mfr_Name : String
  mfr_CommonName : String
  country : String
deriving DecidableEq, Repr

/-- Row of the `wmi_by_mfr` table, the `wmi` column forced to text. -/
structure WmiByMfrRow where
  wmi : String
  mfrId : Int
deriving DecidableEq, Repr

/-- Row of the `makes` table (flat CSV listing). -/
structure MakeRow where
  make_id : Int
  make_name : String
deriving DecidableEq, Repr

/-! ## fetch_manufacturers (paginated fetcher + record normalizer)

The op loops over pages 1, 2, 3, ..., breaks when the page's reported
`Count` is 0 (without appending that page), otherwise replaces each record's
empty `VehicleTypes` list with a one-element dummy list, flattens the page
with `pd.json_normalize`, and appends the resulting frame.  After the loop it
concatenates all frames (`pd.concat` raises on an empty list) and returns the
four parent columns deduplicated. -/

/-- The dummy vehicle-type entry substituted for an empty `VehicleTypes` list
(line 50): `[{'IsPrimary': 'Null', 'Name': 'Null'}]`. -/
def nullVehicleType : VehicleType := { isPrimary := "Null", vtName := "Null" }

/-- The in-place fix-up of one record (lines 48-50): an empty `VehicleTypes`
list is replaced by the one-element dummy list, other records are unchanged. -/
def fillEmptyVehicleTypes (r : MfrRecord) : MfrRecord :=
  if r.vehicleTypes = [] then { r with vehicleTypes := [nullVehicleType] } else r

/-- Flattening one record under `record_path=['VehicleTypes']` with the four
meta columns: one output row per nested vehicle-type entry. -/
def normalizeMfrRecord (r : MfrRecord) : List MfrRow :=
  r.vehicleTypes.map (fun vt =>
    { isPrimary := vt.isPrimary, vtName := vt.vtName, country := r.country,
      mfr_CommonName := r.mfr_CommonName, mfr_ID := r.mfr_ID,
      mfr_Name := r.mfr_Name })

/-- The frame built from one page's `Results` (lines 48-58): fix up empty
nested lists, then flatten every record in order. -/
def normalizeMfrPage (records : List MfrRecord) : List MfrRow :=
  (records.map fillEmptyVehicleTypes).flatMap normalizeMfrRecord

/-- Call `pd.concat(df_list)`: raises `ValueError` on an empty list of frames,
otherwise concatenates them in order. -/
def concatDF {α : Type} (dfs : List (List α)) : Except String (List α) :=
  match dfs with
  | [] => .error "No objects to concatenate"
  | _ => .ok dfs.flatten

/-- The page-collecting while-loop of `fetch_manufacturers` (lines 33-60),
run with explicit fuel since the Python loop is unbounded: starting at `page`,
collect one normalized frame per page until a page reports `Count == 0`
(that page is discarded).  `none` means the fuel ran out before an empty page
was seen. -/
def fetchManufacturersPages (src : Nat → MfrPage) :
    Nat → Nat → Option (List (List MfrRow))
  | 0, _ => none
  | fuel + 1, page =>
    if (src page).count = 0 then some []
    else
      match fetchManufacturersPages src fuel (page + 1) with
      | none => none
      | some rest => some (normalizeMfrPage (src page).results :: rest)

/-- Frame `df_combined` (line 62): the concatenation of the collected page frames,
`pd.concat` raising when no page was collected. -/
def manufacturersCombined (src : Nat → MfrPage) (fuel : Nat) :
    Option (Except String (List MfrRow)) :=
  (fetchManufacturersPages src fuel 1).map concatDF

/-- Op `fetch_manufacturers`: collect the pages starting at page 1, concatenate
the frames (raising on zero frames), then project to the four parent columns
and drop duplicate rows (line 66). -/
def fetch_manufacturers (src : Nat → MfrPage) (fuel : Nat) :
    Option (Except String (List MfrFinalRow)) :=
  (manufacturersCombined src fuel).map (fun res =>
    res.map (fun rows =>
      dropDuplicates (rows.map (fun r =>
        { mfr_ID := r.mfr_ID, mfr_Name := r.mfr_Name,
          mfr_CommonName := r.mfr_CommonName, country := r.country }))))

/-- Op `fetch_mfr_id_list`: `SELECT distinct Mfr_ID FROM manufacturers`. -/
def fetch_mfr_id_list (store : Store MfrFinalRow) : Except DBError (List Int) :=
  selectDistinctCol store "manufacturers" (fun r => r.mfr_ID)

/-- Op `fetch_wmi_list`: `SELECT distinct wmi FROM wmi_by_mfr`. -/
def fetch_wmi_list (store : Store WmiByMfrRow) : Except DBError (List String) :=
  selectDistinctCol store "wmi_by_mfr" (fun r => r.wmi)

/-- Op `fetch_make_id_list`: `SELECT distinct make_id FROM makes`. -/
def fetch_make_id_list (store : Store MakeRow) : Except DBError (List Int) :=
  selectDistinctCol store "makes" (fun r => r.make_id)

/-! ## fetch_makes_from_wmi (keyed batch fetch with per-key failure handling)

For each WMI code the op requests the decode endpoint with a 10-second
timeout, parses the JSON body and flattens its `Results`, tags the rows with
the key, and appends the frame.  The `try`/`except` structure (lines 124-141):
an `HTTPError` with code 404 is logged at debug and skipped, any other
`HTTPError` is re-raised; a `JSONDecodeError` is logged at debug and skipped;
a `Timeout` is logged at debug and skipped.  After the loop, `pd.concat`
(raising on an empty frame list) combines the frames. -/

/-- Severity of a `context.log` call. -/
inductive LogLevel where
  | info
  | debug
deriving DecidableEq, Repr

/-- One logged message. -/
structure LogEntry where
  level : LogLevel
  msg : String
deriving DecidableEq, Repr

/-- One entry of a decode response's `Results` array. -/
structure DecodeResult where
  makeId : Int
  makeName : String
deriving DecidableEq, Repr

/-- One row of the decode output frame, after `df.assign(WMI=wmi)`. -/
structure WmiRow where
  makeId : Int
  makeName : String
  WMI : String
deriving DecidableEq, Repr

/-- Outcome of `requests.get` followed by `json.loads` for one key: a decoded
`Results` list, a raised `HTTPError` with its status code, a raised
`JSONDecodeError`, or a raised request timeout. -/
inductive WmiResponse where
  | success (results : List DecodeResult)
  | httpError (code : Nat)
  | malformed
  | timeout
deriving DecidableEq, Repr

/-- A response the except-clauses do not swallow: an `HTTPError` whose code is
not 404 hits the bare `raise` (line 137). -/
def WmiResponse.isFatal : WmiResponse → Bool
  | .httpError code => code != 404
  | _ => false

/-- A response handled by appending a frame. -/
def WmiResponse.isSuccess : WmiResponse → Bool
  | .success _ => true
  | _ => false

/-- A response handled by logging and skipping the key: a 404 `HTTPError`, a
`JSONDecodeError`, or a timeout. -/
def WmiResponse.isSkipped : WmiResponse → Bool
  | .httpError code => code == 404
  | .malformed => true
  | .timeout => true
  | .success _ => false

/-- The debug message logged when a key is skipped (lines 134, 139, 141);
the key and the kind of error appear in the message. -/
def skipMsg (wmi : String) : WmiResponse → String
  | .httpError _ => "wmi code that failed: " ++ wmi ++ " - HTTPError"
  | .malformed => "wmi code that failed: " ++ wmi ++ " - JSONDecodeError"
  | .timeout => "Timeout error:  Timeout exceeded 10 seconds for wmi: " ++ wmi
  | .success _ => ""

/-- The frame built from one successful decode: the flattened `Results` rows
tagged with the originating key. -/
def successFrame (wmi : String) (results : List DecodeResult) : List WmiRow :=
  results.map (fun r => { makeId := r.makeId, makeName := r.makeName, WMI := wmi })

/-- The frame one key contributes: its tagged rows on success, nothing
otherwise. -/
def responseFrame (env : String → WmiResponse) (wmi : String) : List WmiRow :=
  match env wmi with
  | .success results => successFrame wmi results
  | _ => []

/-- An exception escaping `fetch_makes_from_wmi`: a re-raised non-404
`HTTPError`, or the `ValueError` of `pd.concat` on an empty frame list. -/
inductive BatchError where
  | httpError (code : Nat)
  | emptyConcat
deriving DecidableEq, Repr

/-- The per-key loop of `fetch_makes_from_wmi` (lines 122-141): accumulates
the list of frames and the log, short-circuiting on a non-404 `HTTPError`. -/
def fetchMakesLoop (env : String → WmiResponse) :
    List String → Except BatchError (List (List WmiRow) × List LogEntry)
  | [] => .ok ([], [])
  | wmi :: rest =>
    match env wmi with
    | .success results =>
      (fetchMakesLoop env rest).map (fun p =>
        (successFrame wmi results :: p.1,
         { level := .info, msg := "Pulling data for wmi: " ++ wmi } ::
         { level := .info, msg := "wmi added: " ++ wmi } :: p.2))
    | .httpError code =>
      if code = 404 then
        (fetchMakesLoop env rest).map (fun p =>
          (p.1, { level := .info, msg := "Pulling data for wmi: " ++ wmi } ::
            { level := .debug, msg := skipMsg wmi (.httpError code) } :: p.2))
      else .error (.httpError code)
    | .malformed =>
      (fetchMakesLoop env rest).map (fun p =>
        (p.1, { level := .info, msg := "Pulling data for wmi: " ++ wmi } ::
          { level := .debug, msg := skipMsg wmi .malformed } :: p.2))
    | .timeout =>
      (fetchMakesLoop env rest).map (fun p =>
        (p.1, { level := .info, msg := "Pulling data for wmi: " ++ wmi } ::
          { level := .debug, msg := skipMsg wmi .timeout } :: p.2))

/-- Op `fetch_makes_from_wmi`: run the loop, then concatenate the collected
frames; `pd.concat` of zero frames raises (line 143). -/
def fetch_makes_from_wmi (env : String → WmiResponse) (wmi_list : List String) :
    Except BatchError (List WmiRow) :=
  match fetchMakesLoop env wmi_list with
  | .error e => .error e
  | .ok p =>
    match concatDF p.1 with
    | .error _ => .error .emptyConcat
    | .ok rows => .ok rows

/-! ## fetch_wmi_by_manufacturer_id and fetch_model_names

Both ops run one `pd.read_csv(url)` per key inside a plain loop with no
`try`/`except`: any exception raised for one key propagates out of the op. -/

/-- An exception raised by `pd.read_csv` on a URL (transport status error or
malformed body), or by the final `pd.concat` on an empty frame list. -/
inductive FetchError where
  | transport (code : Nat)
  | parse
  | emptyConcat
deriving DecidableEq, Repr

/-- A CSV cell that pandas may infer as integer or string; `astype('str')`
forces the textual form. -/
inductive CsvValue where
  | intVal (n : Int)
  | strVal (s : String)
deriving DecidableEq, Repr

/-- Result of `.astype('str')` on one cell. -/
def CsvValue.asStr : CsvValue → String
  | .intVal n => toString n
  | .strVal s => s

/-- One row of a `GetWMIsForManufacturer` CSV response. -/
structure WmiCsvRow where
  wmi : CsvValue
  mfrId : Int
deriving DecidableEq, Repr

/-- The per-key loop of `fetch_wmi_by_manufacturer_id` (lines 85-93): one
request per manufacturer ID, the `wmi` column forced to text, no exception
handling, frames collected in key order. -/
def fetchWmiByMfrLoop (env : Int → Except FetchError (List WmiCsvRow)) :
    List Int → Except FetchError (List (List WmiByMfrRow))
  | [] => .ok []
  | mfr_id :: rest =>
    match env mfr_id with
    | .error e => .error e
    | .ok df =>
      (fetchWmiByMfrLoop env rest).map (fun dfs =>
        df.map (fun r => { wmi := r.wmi.asStr, mfrId := r.mfrId }) :: dfs)

/-- Op `fetch_wmi_by_manufacturer_id`: run the loop, then `pd.concat`. -/
def fetch_wmi_by_manufacturer_id (env : Int → Except FetchError (List WmiCsvRow))
    (mfr_id_list : List Int) : Except FetchError (List WmiByMfrRow) :=
  match fetchWmiByMfrLoop env mfr_id_list with
  | .error e => .error e
  | .ok dfs =>
    match concatDF dfs with
    | .error _ => .error .emptyConcat
    | .ok rows => .ok rows

/-- One row of a `GetModelsForMakeIdYear` CSV response. -/
structure ModelCsvRow where
  make_id : Int
  model_name : CsvValue
deriving DecidableEq, Repr

/-- One row of the models output frame, after `df.assign(year=year)` and
`astype('str')` on `model_name`. -/
structure ModelRow where
  make_id : Int
  model_name : String
  year : Int
deriving DecidableEq, Repr

/-- Python `range(start_year, current_year + 1)` with
`start_year = current_year - 14` (lines 183-184): the 15 years from
`current_year - 14` to `current_year` inclusive. -/
def yearsRange (current_year : Int) : List Int :=
  (List.range 15).map (fun (i : Nat) => current_year - 14 + (i : Int))

/-- The request triples `(make_id, year, vehicle_type)` issued by the nested
loops of `fetch_model_names` (lines 187-190), in issue order: year outermost,
make ID next, vehicle type innermost. -/
def modelRequests (make_id_list : List Int) (current_year : Int) :
    List (Int × Int × String) :=
  (yearsRange current_year).flatMap (fun year =>
    make_id_list.flatMap (fun make_id =>
      ["passenger", "truck"].map (fun vt => (make_id, year, vt))))

/-- Normalization of one response frame: tag the rows with the request's
model year and force `model_name` to text (lines 192-196). -/
def normalizeModelFrame (year : Int) (df : List ModelCsvRow) : List ModelRow :=
  df.map (fun r => { make_id := r.make_id, model_name := r.model_name.asStr, year := year })

/-- The request loop of `fetch_model_names`: one request per triple, no
exception handling, frames collected in issue order. -/
def fetchModelsLoop (env : Int → Int → String → Except FetchError (List ModelCsvRow)) :
    List (Int × Int × String) → Except FetchError (List (List ModelRow))
  | [] => .ok []
  | t :: rest =>
    match env t.1 t.2.1 t.2.2 with
    | .error e => .error e
    | .ok df =>
      (fetchModelsLoop env rest).map (fun dfs => normalizeModelFrame t.2.1 df :: dfs)

/-- Op `fetch_model_names`: issue the cartesian-product requests, then
`pd.concat`. -/
def fetch_model_names (env : Int → Int → String → Except FetchError (List ModelCsvRow))
    (make_id_list : List Int) (current_year : Int) : Except FetchError (List ModelRow) :=
  match fetchModelsLoop env (modelRequests make_id_list current_year) with
  | .error e => .error e
  | .ok dfs =>
    match concatDF dfs with
    | .error _ => .error .emptyConcat
    | .ok rows => .ok rows

/-! ## Concrete stores and environments used in closed statements -/

/-- A concrete page source with two non-empty pages followed by empty pages. -/
def twoPageSrc : Nat → MfrPage := fun p =>
  if p = 1 then
    { count := 1,
      results := [{ country := "US", mfr_CommonName := "A", mfr_ID := 1,
                    mfr_Name := "AA", vehicleTypes := [] }] }
  else if p = 2 then
    { count := 1,
      results := [{ country := "JP", mfr_CommonName := "B", mfr_ID := 2,
                    mfr_Name := "BB",
                    vehicleTypes := [{ isPrimary := "True", vtName := "Car" }] }] }
  else { count := 0, results := [] }

/-- A store holding one table `t` with the single row `0`. -/
def storeT : Store Nat := fun n => if n = "t" then some [0] else none

/-- A decode environment in which every request succeeds with an empty
`Results` array. -/
def emptyResultsEnv : String → WmiResponse := fun _ => WmiResponse.success []

/-- A decode environment exercising every per-key outcome: one key succeeds,
one yields a 404, one a malformed body, one a timeout, one a 500. -/
def mixedEnv : String → WmiResponse := fun w =>
  if w = "OK1" then .success [{ makeId := 1, makeName := "M1" }]
  else if w = "NF" then .httpError 404
  else if w = "BAD" then .malformed
  else if w = "SLOW" then .timeout
  else if w = "ERR" then .httpError 500
  else .success []

/-- A CSV environment in which manufacturer ID 2's request raises a transport
error and every other request succeeds with one row. -/
def failAt2Env : Int → Except FetchError (List WmiCsvRow) := fun i =>
  if i = 2 then .error (.transport 500)
  else .ok [{ wmi := .strVal "ABC", mfrId := i }]

end Nhtsa

namespace Nhtsa

/-! ## Theorems -/

/-- C6: `upload_df_to_duckdb` is a full replace: publishing result set `A`
and then result set `B` under the same table name leaves the table containing
exactly `B`'s rows — no row of `A` remains, nothing is merged or appended —
and no other table is touched. -/
theorem upload_full_replace {α : Type} (store : Store α) (name : String)
    (A B : List α) :
    (upload_df_to_duckdb (upload_df_to_duckdb store name A) name B) name = some B
    ∧ ∀ n, n ≠ name →
        (upload_df_to_duckdb (upload_df_to_duckdb store name A) name B) n = store n := by
  unfold upload_df_to_duckdb uploadStmts
  refine ⟨by simp [execStmt], fun n hn => ?_⟩
  simp [execStmt, hn]

/-- Witness for C6 at a concrete store, table and row sets. -/
theorem upload_full_replace_witness :
    (upload_df_to_duckdb (upload_df_to_duckdb (fun _ => none) "t" [1]) "t" [2, 3]) "t"
      = some [2, 3]
    ∧ (upload_df_to_duckdb (upload_df_to_duckdb (fun _ => none) "t" [1]) "t" [2, 3]) "u"
      = none :=
  ⟨(upload_full_replace (fun _ => none) "t" [1] [2, 3]).1,
   (upload_full_replace (fun _ => none) "t" [1] [2, 3]).2 "u" (by decide)⟩

/-- C7, counterexample: the publisher does not issue a single combined
replace step.  On the store holding table `t` with rows `[0]`, publishing
`[1]` passes through an observable intermediate state (after the separate
`DROP TABLE IF EXISTS`) in which the table is absent — neither the old table
`[0]` nor the new table `[1]` is visible there. -/
theorem upload_not_atomic_cex :
    storeT "t" = some [0]
    ∧ (upload_df_to_duckdb storeT "t" [1]) "t" = some [1]
    ∧ (uploadTrace storeT "t" [1]).length = 3
    ∧ ((uploadTrace storeT "t" [1]).getD 1 (fun _ => none)) "t" = none := by
  refine ⟨rfl, ?_, rfl, ?_⟩
  · simp [upload_df_to_duckdb, uploadStmts, execStmt, storeT]
  · simp [uploadTrace, uploadStmts, execStmt, storeT]

/-- C7, amended: the publisher issues two separately visible statements —
`DROP TABLE IF EXISTS` then `CREATE TABLE ... AS` — so a reader between them
observes the table as absent; every observable state shows the old table, no
table, or the complete new table (never a partially replaced one). -/
theorem upload_two_visible_steps {α : Type} (store : Store α) (name : String)
    (df : List α) :
    uploadTrace store name df =
      [store, execStmt store (SqlStmt.dropIfExists name),
       upload_df_to_duckdb store name df]
    ∧ (execStmt store (SqlStmt.dropIfExists name)) name = none
    ∧ (upload_df_to_duckdb store name df) name = some df
    ∧ ∀ s ∈ uploadTrace store name df,
        s name = store name ∨ s name = none ∨ s name = some df := by
  refine ⟨rfl, by simp [execStmt], by simp [upload_df_to_duckdb, uploadStmts, execStmt], ?_⟩
  intro s hs
  simp only [uploadTrace, uploadStmts, List.scanl] at hs
  simp only [List.mem_cons, List.mem_singleton, List.not_mem_nil, or_false] at hs
  rcases hs with rfl | rfl | rfl
  · exact Or.inl rfl
  · exact Or.inr (Or.inl (by simp [execStmt]))
  · exact Or.inr (Or.inr (by simp [execStmt]))

/-- Witness for C7's amended theorem at a concrete store and rows. -/
theorem upload_two_visible_steps_witness :
    (execStmt storeT (SqlStmt.dropIfExists "t")) "t" = none
    ∧ (upload_df_to_duckdb storeT "t" [1]) "t" = some [1]
    ∧ (storeT "t" = storeT "t" ∨ storeT "t" = none ∨ storeT "t" = some [1]) :=
  ⟨(upload_two_visible_steps storeT "t" [1]).2.1,
   (upload_two_visible_steps storeT "t" [1]).2.2.1,
   (upload_two_visible_steps storeT "t" [1]).2.2.2 storeT (by simp [uploadTrace, uploadStmts])⟩

/-- Helper: the page loop starting at `start`, when the `k` pages from
`start` on are non-empty and page `start + k` reports count 0, collects
exactly the `k` normalized page frames in page order. -/
theorem fetchPages_eq (src : Nat → MfrPage) :
    ∀ (k fuel start : Nat),
      (∀ p, start ≤ p → p < start + k → (src p).count ≠ 0) →
      (src (start + k)).count = 0 →
      k + 1 ≤ fuel →
      fetchManufacturersPages src fuel start =
        some ((List.range k).map (fun i => normalizeMfrPage (src (start + i)).results)) := by
  intro k
  induction k with
  | zero =>
    intro fuel start _ hstop hfuel
    match fuel, hfuel with
    | fuel + 1, _ =>
      rw [Nat.add_zero] at hstop
      simp [fetchManufacturersPages, hstop]
  | succ k ih =>
    intro fuel start hne hstop hfuel
    match fuel, hfuel with
    | fuel + 1, hfuel =>
      have h0 : ¬(src start).count = 0 := hne start le_rfl (by omega)
      have hrest := ih fuel (start + 1)
        (fun p hp1 hp2 => hne p (by omega) (by omega))
        (by rw [show start + 1 + k = start + (k + 1) by omega]; exact hstop)
        (by omega)
      simp only [fetchManufacturersPages, if_neg h0, hrest]
      refine congrArg some ?_
      rw [List.range_succ_eq_map, List.map_cons, List.map_map]
      refine congrArg₂ List.cons (by rw [Nat.add_zero]) ?_
      refine List.map_congr_left (fun i _ => ?_)
      show normalizeMfrPage (src (start + 1 + i)).results
        = normalizeMfrPage (src (start + Nat.succ i)).results
      rw [show start + Nat.succ i = start + 1 + i by omega]

/-- C3: for a source with `N` non-empty pages followed by an empty page, the
paginated fetcher visits pages 1, 2, 3, …, stops at the first page whose
reported `Count` is zero and discards it, and the collected frames — and
hence the combined frame — are exactly the normalized records of the `N`
non-empty pages, in page order. -/
theorem fetch_manufacturers_pagination (src : Nat → MfrPage) (N fuel : Nat)
    (hne : ∀ p, 1 ≤ p → p ≤ N → (src p).count ≠ 0)
    (hstop : (src (N + 1)).count = 0)
    (hfuel : N + 1 ≤ fuel) :
    fetchManufacturersPages src fuel 1 =
      some ((List.range N).map (fun i => normalizeMfrPage (src (i + 1)).results))
    ∧ (1 ≤ N →
        manufacturersCombined src fuel =
          some (.ok (((List.range N).map
            (fun i => normalizeMfrPage (src (i + 1)).results)).flatten))) := by
  have hpages : fetchManufacturersPages src fuel 1 =
      some ((List.range N).map (fun i => normalizeMfrPage (src (i + 1)).results)) := by
    have := fetchPages_eq src N fuel 1
      (fun p hp1 hp2 => hne p hp1 (by omega))
      (by rw [show (1 : Nat) + N = N + 1 by omega]; exact hstop)
      hfuel
    rw [this]
    refine congrArg some (List.map_congr_left (fun i _ => ?_))
    rw [Nat.add_comm 1 i]
  refine ⟨hpages, fun hN => ?_⟩
  rw [manufacturersCombined, hpages, Option.map_some']
  have hcons : ∃ x xs, (List.range N).map
      (fun i => normalizeMfrPage (src (i + 1)).results) = x :: xs := by
    match N, hN with
    | N + 1, _ =>
      rw [List.range_succ_eq_map, List.map_cons]
      exact ⟨_, _, rfl⟩
  obtain ⟨x, xs, hx⟩ := hcons
  rw [hx]
  rfl

/-- Witness for C3 on a concrete two-page source. -/
theorem fetch_manufacturers_pagination_witness :
    fetchManufacturersPages twoPageSrc 3 1 =
      some ((List.range 2).map (fun i => normalizeMfrPage (twoPageSrc (i + 1)).results))
    ∧ manufacturersCombined twoPageSrc 3 =
        some (.ok (((List.range 2).map
          (fun i => normalizeMfrPage (twoPageSrc (i + 1)).results)).flatten)) := by
  have h := fetch_manufacturers_pagination twoPageSrc 2 3
    (fun p hp1 hp2 => by interval_cases p <;> decide)
    (by decide) (by decide)
  exact ⟨h.1, h.2 (by decide)⟩

/-- C10: when the very first page reports a count of zero, zero pages are
collected and `fetch_manufacturers` raises the empty-concatenation error
instead of returning an empty result set. -/
theorem fetch_manufacturers_zero_pages (src : Nat → MfrPage) (fuel : Nat)
    (h : (src 1).count = 0) (hfuel : 1 ≤ fuel) :
    fetch_manufacturers src fuel = some (.error "No objects to concatenate") := by
  match fuel, hfuel with
  | fuel + 1, _ =>
    simp [fetch_manufacturers, manufacturersCombined, fetchManufacturersPages, h, concatDF,
      Except.map]

/-- Witness for C10 on the always-empty source. -/
theorem fetch_manufacturers_zero_pages_witness :
    fetch_manufacturers (fun _ => { count := 0, results := [] }) 1
      = some (.error "No objects to concatenate") :=
  fetch_manufacturers_zero_pages (fun _ => { count := 0, results := [] }) 1 rfl (by decide)

/-- C4: the record normalizer never drops a record: a record whose nested
`VehicleTypes` list is empty contributes exactly one flattened row carrying
its parent fields and the `Null` markers in the nested fields, a record with
`k ≥ 1` nested children contributes exactly `k` rows, and every record
contributes at least one row. -/
theorem normalizer_null_substitution (r : MfrRecord) :
    (r.vehicleTypes = [] →
      normalizeMfrRecord (fillEmptyVehicleTypes r) =
        [{ isPrimary := "Null", vtName := "Null", country := r.country,
           mfr_CommonName := r.mfr_CommonName, mfr_ID := r.mfr_ID,
           mfr_Name := r.mfr_Name }])
    ∧ (∀ k, r.vehicleTypes.length = k → 1 ≤ k →
        (normalizeMfrRecord (fillEmptyVehicleTypes r)).length = k)
    ∧ 1 ≤ (normalizeMfrRecord (fillEmptyVehicleTypes r)).length := by
  by_cases h : r.vehicleTypes = []
  · refine ⟨fun _ => ?_, fun k hk h1 => ?_, ?_⟩
    · simp [fillEmptyVehicleTypes, h, normalizeMfrRecord, nullVehicleType]
    · rw [h, List.length_nil] at hk
      omega
    · simp [fillEmptyVehicleTypes, h, normalizeMfrRecord, nullVehicleType]
  · refine ⟨fun he => absurd he h, fun k hk h1 => ?_, ?_⟩
    · simp [fillEmptyVehicleTypes, h, normalizeMfrRecord, hk]
    · simp only [fillEmptyVehicleTypes, if_neg h, normalizeMfrRecord, List.length_map]
      exact List.length_pos.mpr h

/-- Witness for C4 on a record with no nested children and one with two. -/
theorem normalizer_null_substitution_witness :
    normalizeMfrRecord (fillEmptyVehicleTypes
      { country := "US", mfr_CommonName := "A", mfr_ID := 1, mfr_Name := "AA",
        vehicleTypes := [] }) =
      [{ isPrimary := "Null", vtName := "Null", country := "US",
         mfr_CommonName := "A", mfr_ID := 1, mfr_Name := "AA" }]
    ∧ (normalizeMfrRecord (fillEmptyVehicleTypes
        { country := "JP", mfr_CommonName := "B", mfr_ID := 2, mfr_Name := "BB",
          vehicleTypes := [{ isPrimary := "True", vtName := "Car" },
                           { isPrimary := "False", vtName := "Truck" }] })).length = 2 :=
  ⟨(normalizer_null_substitution _).1 rfl,
   (normalizer_null_substitution _).2.1 2 rfl (by decide)⟩

/-- C8: each key extractor fails with the missing-table error when the table
it reads does not yet exist. -/
theorem key_extractor_missing_table
    (s1 : Store MfrFinalRow) (s2 : Store WmiByMfrRow) (s3 : Store MakeRow)
    (h1 : s1 "manufacturers" = none) (h2 : s2 "wmi_by_mfr" = none)
    (h3 : s3 "makes" = none) :
    fetch_mfr_id_list s1 = .error (.missingTable "manufacturers")
    ∧ fetch_wmi_list s2 = .error (.missingTable "wmi_by_mfr")
    ∧ fetch_make_id_list s3 = .error (.missingTable "makes") := by
  unfold fetch_mfr_id_list fetch_wmi_list fetch_make_id_list selectDistinctCol
  rw [h1, h2, h3]
  exact ⟨rfl, rfl, rfl⟩

/-- Witness for C8 on the empty store. -/
theorem key_extractor_missing_table_witness :
    fetch_mfr_id_list (fun _ => none) = .error (.missingTable "manufacturers")
    ∧ fetch_wmi_list (fun _ => none) = .error (.missingTable "wmi_by_mfr")
    ∧ fetch_make_id_list (fun _ => none) = .error (.missingTable "makes") :=
  key_extractor_missing_table (fun _ => none) (fun _ => none) (fun _ => none) rfl rfl rfl

/-- Helper: on a key list none of whose responses is a non-404 `HTTPError`,
the decode loop returns normally; the collected frames are exactly the tagged
frames of the successful keys in key order, and every skipped key has its
debug message in the log. -/
theorem fetchMakesLoop_ok (env : String → WmiResponse) :
    ∀ (wmis : List String), (∀ w ∈ wmis, (env w).isFatal = false) →
      ∃ logs,
        fetchMakesLoop env wmis =
          .ok ((wmis.filter (fun w => (env w).isSuccess)).map (responseFrame env), logs)
        ∧ ∀ w ∈ wmis, (env w).isSkipped = true →
            ({ level := LogLevel.debug, msg := skipMsg w (env w) } : LogEntry) ∈ logs := by
  intro wmis
  induction wmis with
  | nil => exact fun _ => ⟨[], rfl, by simp⟩
  | cons w rest ih =>
    intro h
    obtain ⟨logs, hloop, hmem⟩ := ih (fun x hx => h x (List.mem_cons_of_mem w hx))
    have hw := h w (List.mem_cons_self w rest)
    cases henv : env w with
    | success results =>
      refine ⟨{ level := .info, msg := "Pulling data for wmi: " ++ w } ::
              { level := .info, msg := "wmi added: " ++ w } :: logs, ?_, ?_⟩
      · simp only [fetchMakesLoop, henv, hloop, Except.map, List.filter_cons,
          WmiResponse.isSuccess, if_pos, List.map_cons, responseFrame]
      · intro x hx hskip
        rcases List.mem_cons.mp hx with rfl | hx'
        · rw [henv] at hskip
          simp [WmiResponse.isSkipped] at hskip
        · exact List.mem_cons_of_mem _ (List.mem_cons_of_mem _ (hmem x hx' hskip))
    | httpError code =>
      have hc : code = 404 := by
        rw [henv] at hw
        simpa [WmiResponse.isFatal] using hw
      subst hc
      refine ⟨{ level := .info, msg := "Pulling data for wmi: " ++ w } ::
              { level := .debug, msg := skipMsg w (.httpError 404) } :: logs, ?_, ?_⟩
      · simp only [fetchMakesLoop, henv, hloop, Except.map,
          List.filter_cons, WmiResponse.isSuccess, Bool.false_eq_true, if_false, if_true]
      · intro x hx _
        rcases List.mem_cons.mp hx with rfl | hx'
        · rw [henv]
          exact List.mem_cons_of_mem _ (List.mem_cons_self _ _)
        · exact List.mem_cons_of_mem _ (List.mem_cons_of_mem _ (hmem x hx' (by assumption)))
    | malformed =>
      refine ⟨{ level := .info, msg := "Pulling data for wmi: " ++ w } ::
              { level := .debug, msg := skipMsg w .malformed } :: logs, ?_, ?_⟩
      · simp only [fetchMakesLoop, henv, hloop, Except.map, List.filter_cons,
          WmiResponse.isSuccess, Bool.false_eq_true, if_false]
      · intro x hx _
        rcases List.mem_cons.mp hx with rfl | hx'
        · rw [henv]
          exact List.mem_cons_of_mem _ (List.mem_cons_self _ _)
        · exact List.mem_cons_of_mem _ (List.mem_cons_of_mem _ (hmem x hx' (by assumption)))
    | timeout =>
      refine ⟨{ level := .info, msg := "Pulling data for wmi: " ++ w } ::
              { level := .debug, msg := skipMsg w .timeout } :: logs, ?_, ?_⟩
      · simp only [fetchMakesLoop, henv, hloop, Except.map, List.filter_cons,
          WmiResponse.isSuccess, Bool.false_eq_true, if_false]
      · intro x hx _
        rcases List.mem_cons.mp hx with rfl | hx'
        · rw [henv]
          exact List.mem_cons_of_mem _ (List.mem_cons_self _ _)
        · exact List.mem_cons_of_mem _ (List.mem_cons_of_mem _ (hmem x hx' (by assumption)))

/-- Helper: a non-404 `HTTPError` short-circuits the decode loop: with every
earlier key non-fatal, the loop returns that error. -/
theorem fetchMakesLoop_fatal (env : String → WmiResponse) :
    ∀ (pre : List String) (w : String) (post : List String) (code : Nat),
      (∀ x ∈ pre, (env x).isFatal = false) →
      env w = .httpError code → code ≠ 404 →
      fetchMakesLoop env (pre ++ w :: post) = .error (.httpError code) := by
  intro pre
  induction pre with
  | nil =>
    intro w post code _ hw h404
    simp only [List.nil_append, fetchMakesLoop, hw, if_neg h404]
  | cons x pre ih =>
    intro w post code hpre hw h404
    have hrest := ih w post code (fun y hy => hpre y (List.mem_cons_of_mem x hy)) hw h404
    have hx := hpre x (List.mem_cons_self x pre)
    cases henv : env x with
    | success results =>
      simp only [List.cons_append, fetchMakesLoop, henv, List.append_eq, hrest, Except.map]
    | httpError c =>
      have hc : c = 404 := by
        rw [henv] at hx
        simpa [WmiResponse.isFatal] using hx
      subst hc
      simp only [List.cons_append, fetchMakesLoop, henv, if_true, List.append_eq, hrest,
        Except.map]
    | malformed =>
      simp only [List.cons_append, fetchMakesLoop, henv, List.append_eq, hrest, Except.map]
    | timeout =>
      simp only [List.cons_append, fetchMakesLoop, henv, List.append_eq, hrest, Except.map]

/-- C1: per-key failure policy of the WMI-decode batch fetch.  When no key's
response is a non-404 transport error, the loop completes over the whole key
list: the collected frames are exactly the tagged frames of the successful
keys in key order — a key answered by a 404, a malformed body, or a timeout
contributes zero rows while iteration continues — and every such skipped key
is logged at debug severity with the key and error detail.  A transport
status error other than 404 propagates and aborts the whole batch. -/
theorem fetch_makes_from_wmi_error_policy (env : String → WmiResponse)
    (wmis : List String) :
    ((∀ w ∈ wmis, (env w).isFatal = false) →
      ∃ logs,
        fetchMakesLoop env wmis =
          .ok ((wmis.filter (fun w => (env w).isSuccess)).map (responseFrame env), logs)
        ∧ ∀ w ∈ wmis, (env w).isSkipped = true →
            ({ level := LogLevel.debug, msg := skipMsg w (env w) } : LogEntry) ∈ logs)
    ∧ (∀ pre w post code, wmis = pre ++ w :: post →
        (∀ x ∈ pre, (env x).isFatal = false) →
        env w = .httpError code → code ≠ 404 →
        fetch_makes_from_wmi env wmis = .error (.httpError code)) := by
  refine ⟨fetchMakesLoop_ok env wmis, ?_⟩
  intro pre w post code hsplit hpre hw h404
  rw [hsplit]
  unfold fetch_makes_from_wmi
  rw [fetchMakesLoop_fatal env pre w post code hpre hw h404]

/-- Witness for C1: on a concrete batch holding a 404 key, a malformed key, a
timeout key and a successful key, only the successful key contributes rows;
on a batch holding a 500 key, the batch aborts with that error. -/
theorem fetch_makes_from_wmi_error_policy_witness :
    (∃ logs,
      fetchMakesLoop mixedEnv ["NF", "OK1", "BAD", "SLOW"] =
        .ok ((["NF", "OK1", "BAD", "SLOW"].filter
              (fun w => (mixedEnv w).isSuccess)).map (responseFrame mixedEnv), logs)
      ∧ ∀ w ∈ ["NF", "OK1", "BAD", "SLOW"], (mixedEnv w).isSkipped = true →
          ({ level := LogLevel.debug, msg := skipMsg w (mixedEnv w) } : LogEntry) ∈ logs)
    ∧ fetch_makes_from_wmi mixedEnv ["OK1", "ERR", "OK1"] = .error (.httpError 500) :=
  ⟨(fetch_makes_from_wmi_error_policy mixedEnv ["NF", "OK1", "BAD", "SLOW"]).1 (by decide),
   (fetch_makes_from_wmi_error_policy mixedEnv ["OK1", "ERR", "OK1"]).2
     ["OK1"] "ERR" ["OK1"] 500 rfl (by decide) (by decide) (by decide)⟩

/-- C5, counterexample: a batch whose single key succeeds with an empty
`Results` array collects zero rows, yet `fetch_makes_from_wmi` does not fail —
it returns an empty result set. -/
theorem fetch_makes_zero_rows_cex :
    fetch_makes_from_wmi emptyResultsEnv ["AAA"] = .ok [] := by
  rfl

/-- C5, amended: the empty-result failure occurs exactly when zero frames
were collected, that is, when no key succeeded (every key was skipped); a key
that succeeds with an empty response still contributes a frame, so the batch
can return an empty result set. -/
theorem fetch_makes_empty_failure (env : String → WmiResponse)
    (wmis : List String) (h : ∀ w ∈ wmis, (env w).isFatal = false) :
    fetch_makes_from_wmi env wmis = .error .emptyConcat
      ↔ ∀ w ∈ wmis, (env w).isSuccess = false := by
  obtain ⟨logs, hloop, -⟩ := fetchMakesLoop_ok env wmis h
  unfold fetch_makes_from_wmi
  rw [hloop]
  cases hf : wmis.filter (fun w => (env w).isSuccess) with
  | nil =>
    simp only [hf, List.map_nil, concatDF]
    constructor
    · intro _ w hw
      have := List.filter_eq_nil_iff.mp hf w hw
      simpa using this
    · intro _
      trivial
  | cons x xs =>
    simp only [hf, List.map_cons, concatDF]
    constructor
    · intro habs
      exact absurd habs (by simp)
    · intro hall
      have hx : x ∈ wmis.filter (fun w => (env w).isSuccess) := by
        rw [hf]
        exact List.mem_cons_self x xs
      have hmem := List.mem_filter.mp hx
      rw [hall x hmem.1] at hmem
      exact absurd hmem.2 (by simp)

/-- Witness for C5's amended theorem: on a batch whose keys are all skipped,
the op fails with the empty-concatenation error. -/
theorem fetch_makes_empty_failure_witness :
    fetch_makes_from_wmi mixedEnv ["NF", "BAD", "SLOW"] = .error .emptyConcat :=
  (fetch_makes_empty_failure mixedEnv ["NF", "BAD", "SLOW"] (by decide)).mpr (by decide)

/-- Helper: with every earlier request succeeding, the first failing request
aborts the WMI-by-manufacturer loop with its error (there is no `try` around
the per-key request). -/
theorem fetchWmiByMfrLoop_error (env : Int → Except FetchError (List WmiCsvRow)) :
    ∀ (pre : List Int) (k : Int) (post : List Int) (e : FetchError),
      (∀ x ∈ pre, ∃ df, env x = .ok df) → env k = .error e →
      fetchWmiByMfrLoop env (pre ++ k :: post) = .error e := by
  intro pre
  induction pre with
  | nil =>
    intro k post e _ hk
    simp only [List.nil_append, fetchWmiByMfrLoop, hk]
  | cons x pre ih =>
    intro k post e hpre hk
    obtain ⟨df, hdf⟩ := hpre x (List.mem_cons_self x pre)
    have hrest := ih k post e (fun y hy => hpre y (List.mem_cons_of_mem x hy)) hk
    simp only [List.cons_append, fetchWmiByMfrLoop, hdf, List.append_eq, hrest, Except.map]

/-- Helper: the same for the model-name request loop. -/
theorem fetchModelsLoop_error
    (env : Int → Int → String → Except FetchError (List ModelCsvRow)) :
    ∀ (pre : List (Int × Int × String)) (t : Int × Int × String)
      (post : List (Int × Int × String)) (e : FetchError),
      (∀ x ∈ pre, ∃ df, env x.1 x.2.1 x.2.2 = .ok df) →
      env t.1 t.2.1 t.2.2 = .error e →
      fetchModelsLoop env (pre ++ t :: post) = .error e := by
  intro pre
  induction pre with
  | nil =>
    intro t post e _ ht
    simp only [List.nil_append, fetchModelsLoop, ht]
  | cons x pre ih =>
    intro t post e hpre ht
    obtain ⟨df, hdf⟩ := hpre x (List.mem_cons_self x pre)
    have hrest := ih t post e (fun y hy => hpre y (List.mem_cons_of_mem x hy)) ht
    simp only [List.cons_append, fetchModelsLoop, hdf, List.append_eq, hrest, Except.map]

/-- C2, counterexample: `fetch_wmi_by_manufacturer_id` does not isolate
per-key failures.  With keys `[1, 2, 3]` and key 2's request raising a
transport error, the batch aborts with that error instead of returning the
rows of keys 1 and 3. -/
theorem wmi_batch_aborts_cex :
    fetch_wmi_by_manufacturer_id failAt2Env [1, 2, 3] = .error (.transport 500) := by
  rfl

/-- C2, amended: only `fetch_makes_from_wmi` isolates per-key failures.  In
`fetch_wmi_by_manufacturer_id` and `fetch_model_names` a failing request
propagates: with every earlier request succeeding, the op returns the failing
key's error and no rows. -/
theorem keyed_fetch_no_isolation :
    (∀ (env : Int → Except FetchError (List WmiCsvRow)) (pre : List Int) (k : Int)
        (post : List Int) (e : FetchError),
      (∀ x ∈ pre, ∃ df, env x = Except.ok df) → env k = Except.error e →
      fetch_wmi_by_manufacturer_id env (pre ++ k :: post) = Except.error e)
    ∧ (∀ (env : Int → Int → String → Except FetchError (List ModelCsvRow))
        (make_id_list : List Int) (current_year : Int)
        (pre : List (Int × Int × String)) (t : Int × Int × String)
        (post : List (Int × Int × String)) (e : FetchError),
      modelRequests make_id_list current_year = pre ++ t :: post →
      (∀ x ∈ pre, ∃ df, env x.1 x.2.1 x.2.2 = Except.ok df) →
      env t.1 t.2.1 t.2.2 = Except.error e →
      fetch_model_names env make_id_list current_year = Except.error e) := by
  constructor
  · intro env pre k post e hpre hk
    unfold fetch_wmi_by_manufacturer_id
    rw [fetchWmiByMfrLoop_error env pre k post e hpre hk]
  · intro env make_id_list current_year pre t post e hsplit hpre ht
    unfold fetch_model_names
    rw [hsplit, fetchModelsLoop_error env pre t post e hpre ht]

/-- Witness for C2's amended theorem: a concrete aborted batch for each of
the two ops. -/
theorem keyed_fetch_no_isolation_witness :
    fetch_wmi_by_manufacturer_id failAt2Env ([1] ++ 2 :: [3]) = .error (.transport 500)
    ∧ fetch_model_names (fun _ _ _ => .error .parse) [7] 14 = .error .parse := by
  constructor
  · refine keyed_fetch_no_isolation.1 failAt2Env [1] 2 [3] (.transport 500) ?_ rfl
    intro x hx
    rw [List.mem_singleton] at hx
    subst hx
    exact ⟨_, rfl⟩
  · refine keyed_fetch_no_isolation.2 (fun _ _ _ => .error .parse) [7] 14
      [] (7, 0, "passenger") ((modelRequests [7] 14).tail) .parse ?_ ?_ rfl
    · decide
    · intro x hx
      exact absurd hx (List.not_mem_nil x)

/-- Helper: a year is visited by the model-name loops iff it lies in the
15-year window ending at the current year. -/
theorem mem_yearsRange (current_year y : Int) :
    y ∈ yearsRange current_year ↔ current_year - 14 ≤ y ∧ y ≤ current_year := by
  rw [yearsRange, List.mem_map]
  constructor
  · rintro ⟨i, hi, rfl⟩
    rw [List.mem_range] at hi
    omega
  · intro hy
    refine ⟨(y - (current_year - 14)).toNat, ?_, ?_⟩
    · rw [List.mem_range]
      omega
    · omega

/-- Helper: the years visited are pairwise distinct. -/
theorem yearsRange_nodup (current_year : Int) : (yearsRange current_year).Nodup := by
  rw [yearsRange]
  refine List.Nodup.map ?_ (List.nodup_range 15)
  intro a b hab
  dsimp only at hab
  omega

/-- Helper: a triple is requested iff it belongs to the cartesian product of
the make-ID list, the 15-year window and the two vehicle types. -/
theorem mem_modelRequests (make_id_list : List Int) (current_year : Int)
    (m y : Int) (vt : String) :
    (m, y, vt) ∈ modelRequests make_id_list current_year ↔
      (m ∈ make_id_list ∧ current_year - 14 ≤ y ∧ y ≤ current_year
        ∧ (vt = "passenger" ∨ vt = "truck")) := by
  simp only [modelRequests, List.mem_flatMap, List.mem_map, List.mem_cons,
    List.not_mem_nil, or_false, List.mem_singleton]
  constructor
  · rintro ⟨y', hy', m', hm', vt', hvt', heq⟩
    simp only [Prod.mk.injEq] at heq
    obtain ⟨rfl, rfl, rfl⟩ := heq
    exact ⟨hm', ((mem_yearsRange current_year y').mp hy').1,
      ((mem_yearsRange current_year y').mp hy').2, hvt'⟩
  · rintro ⟨hm, h1, h2, hvt⟩
    exact ⟨y, (mem_yearsRange current_year y).mpr ⟨h1, h2⟩, m, hm, vt, hvt, rfl⟩

/-- Helper: every triple of one year's block carries that year in its second
component. -/
theorem modelRequests_inner_snd {make_id_list : List Int} {y : Int}
    {t : Int × Int × String}
    (h : t ∈ make_id_list.flatMap (fun make_id =>
      ["passenger", "truck"].map (fun vt => (make_id, y, vt)))) : t.2.1 = y := by
  simp only [List.mem_flatMap, List.mem_map, List.mem_cons, List.not_mem_nil, or_false,
    List.mem_singleton] at h
  obtain ⟨m, hm, vt, hvt, rfl⟩ := h
  rfl

/-- Helper: every triple of one make's block carries that make ID in its
first component. -/
theorem modelRequests_pair_fst {m y : Int} {t : Int × Int × String}
    (h : t ∈ ["passenger", "truck"].map (fun vt => (m, y, vt))) : t.1 = m := by
  simp only [List.mem_map, List.mem_cons, List.not_mem_nil, or_false,
    List.mem_singleton] at h
  obtain ⟨vt, hvt, rfl⟩ := h
  rfl

/-- Helper: with distinct make IDs, no request triple is issued twice. -/
theorem modelRequests_nodup (make_id_list : List Int) (current_year : Int)
    (hnd : make_id_list.Nodup) :
    (modelRequests make_id_list current_year).Nodup := by
  rw [modelRequests, List.nodup_flatMap]
  constructor
  · intro y _
    rw [List.nodup_flatMap]
    constructor
    · intro m _
      simp
    · refine List.Pairwise.imp ?_ hnd
      intro a b hab t hta htb
      exact hab ((modelRequests_pair_fst hta).symm.trans (modelRequests_pair_fst htb))
  · refine List.Pairwise.imp ?_ (yearsRange_nodup current_year)
    intro a b hab t hta htb
    exact hab ((modelRequests_inner_snd hta).symm.trans (modelRequests_inner_snd htb))

/-- Helper: when every request succeeds, the model loop collects one
normalized frame per request triple, in issue order. -/
theorem fetchModelsLoop_ok
    (env : Int → Int → String → Except FetchError (List ModelCsvRow))
    (respDf : Int → Int → String → List ModelCsvRow)
    (hresp : ∀ m y vt, env m y vt = .ok (respDf m y vt)) :
    ∀ (reqs : List (Int × Int × String)),
      fetchModelsLoop env reqs =
        .ok (reqs.map (fun t => normalizeModelFrame t.2.1 (respDf t.1 t.2.1 t.2.2))) := by
  intro reqs
  induction reqs with
  | nil => rfl
  | cons t rest ih =>
    simp only [fetchModelsLoop, hresp t.1 t.2.1 t.2.2, ih, Except.map, List.map_cons]

/-- Helper: a non-empty make-ID list issues at least one request. -/
theorem modelRequests_ne_nil (make_id_list : List Int) (current_year : Int)
    (h : make_id_list ≠ []) :
    modelRequests make_id_list current_year ≠ [] := by
  match make_id_list, h with
  | m :: rest, _ =>
    intro habs
    have hmem : (m, current_year - 14, "passenger")
        ∈ modelRequests (m :: rest) current_year := by
      rw [mem_modelRequests]
      exact ⟨List.mem_cons_self m rest, by omega, by omega, Or.inl rfl⟩
    rw [habs] at hmem
    exact List.not_mem_nil _ hmem

/-- C9: `fetch_model_names` issues exactly one request per element of the
cartesian product of the make-ID list, the 15 years from `current_year - 14`
to `current_year` inclusive, and the two vehicle types `passenger` and
`truck` — no other request is issued and, with distinct make IDs, none is
repeated — and when every request succeeds the result is the concatenation
of the normalized responses of exactly these combinations. -/
theorem model_names_cartesian_product
    (env : Int → Int → String → Except FetchError (List ModelCsvRow))
    (make_id_list : List Int) (current_year : Int) (hnd : make_id_list.Nodup) :
    (yearsRange current_year).length = 15
    ∧ (modelRequests make_id_list current_year).Nodup
    ∧ (∀ m y vt, (m, y, vt) ∈ modelRequests make_id_list current_year ↔
        (m ∈ make_id_list ∧ current_year - 14 ≤ y ∧ y ≤ current_year
          ∧ (vt = "passenger" ∨ vt = "truck")))
    ∧ (∀ respDf : Int → Int → String → List ModelCsvRow,
        (∀ m y vt, env m y vt = .ok (respDf m y vt)) →
        make_id_list ≠ [] →
        fetch_model_names env make_id_list current_year =
          .ok (((modelRequests make_id_list current_year).map
            (fun t => normalizeModelFrame t.2.1 (respDf t.1 t.2.1 t.2.2))).flatten)) := by
  refine ⟨by rw [yearsRange, List.length_map, List.length_range],
    modelRequests_nodup make_id_list current_year hnd,
    fun m y vt => mem_modelRequests make_id_list current_year m y vt, ?_⟩
  intro respDf hresp hne
  unfold fetch_model_names
  rw [fetchModelsLoop_ok env respDf hresp]
  cases hmr : (modelRequests make_id_list current_year).map
      (fun t => normalizeModelFrame t.2.1 (respDf t.1 t.2.1 t.2.2)) with
  | nil =>
    exact absurd (List.map_eq_nil_iff.mp hmr)
      (modelRequests_ne_nil make_id_list current_year hne)
  | cons x xs =>
    rfl

/-- Witness for C9 on one make ID and current year 14: the request list, its
count at one product element, and the concatenated result. -/
theorem model_names_cartesian_product_witness :
    (yearsRange 14).length = 15
    ∧ (modelRequests [7] 14).Nodup
    ∧ ((7, 0, "passenger") ∈ modelRequests [7] 14 ↔
        ((7 : Int) ∈ [(7 : Int)] ∧ (14 : Int) - 14 ≤ 0 ∧ (0 : Int) ≤ 14
          ∧ ("passenger" = "passenger" ∨ "passenger" = "truck")))
    ∧ fetch_model_names
        (fun m _ _ => .ok [{ make_id := m, model_name := .strVal "X" }]) [7] 14 =
        .ok (((modelRequests [7] 14).map
          (fun t => normalizeModelFrame t.2.1
            [{ make_id := t.1, model_name := .strVal "X" }])).flatten) := by
  have h := model_names_cartesian_product
    (fun m _ _ => .ok [{ make_id := m, model_name := .strVal "X" }]) [7] 14 (by decide)
  exact ⟨h.1, h.2.1, h.2.2.1 7 0 "passenger",
    h.2.2.2 (fun m _ _ => [{ make_id := m, model_name := .strVal "X" }])
      (fun _ _ _ => rfl) (by decide)⟩

end Nhtsa
